import Mathlib

/-!
# StudyHub QA — verification of the client-side form/state logic

Shallow embedding of the interactive logic in `src/js/main.js`:
login validation, quiz scoring, the form-state gate, table sorting and
pagination, together with the defensive-guard behaviour of the student
filter.  DOM reads (field values, checked boxes) become explicit function
arguments; DOM writes (message text, disabled flags, row order) become
explicit result values.  JavaScript string builtins used by the code
(`trim`, `toLowerCase`, `parseFloat`, `localeCompare`) are modelled as
executable Lean functions over the character lists of strings.
-/

namespace StudyHub

/-- ASCII whitespace as removed by the JavaScript `String.prototype.trim`
builtin (the pages only ever feed it ASCII input). -/
def isJsWhitespace (c : Char) : Bool :=
  c = ' ' || c = '\t' || c = '\n' || c = '\r'

/-- Model of the JavaScript `String.prototype.trim` builtin: drop leading and
trailing whitespace. -/
def jsTrim (s : String) : String :=
  String.mk (((s.toList.dropWhile isJsWhitespace).reverse.dropWhile
    isJsWhitespace).reverse)

/-- ASCII lowering of one character, as `String.prototype.toLowerCase` acts on
the ASCII input the quiz page produces. -/
def charLower (c : Char) : Char :=
  if 'A' ≤ c ∧ c ≤ 'Z' then Char.ofNat (c.toNat + 32) else c

/-- Model of the JavaScript `String.prototype.toLowerCase` builtin on ASCII
input. -/
def jsToLower (s : String) : String :=
  String.mk (s.toList.map charLower)

/-! ## Email shape

The repository ships no HTML under `src/`; the email format check itself is
the browser's HTML5 `type=email` constraint (`emailInput.validity.valid`),
referenced but not implemented by `main.js`. -/

/-- Modelled from the spec: the email format enforced by the pages' HTML5
`type=email` inputs, which `main.js` reads through `validity.valid` but does
not itself implement — "valid iff non-empty and matches a standard email
shape (local@domain with at least one dot in domain)". -/
def validEmailShape (s : String) : Bool :=
  let cs := s.toList
  let loc := cs.takeWhile (fun c => c ≠ '@')
  let dom := (cs.dropWhile (fun c => c ≠ '@')).tail
  (cs.count '@' == 1) && (!loc.isEmpty) && (!dom.isEmpty) && dom.contains '.'

/-- A single field's validation verdict (spec §3, "Validation Result"). -/
structure ValidationResult where
  valid : Bool
  reason : Option String
deriving DecidableEq, Repr

/-- Modelled from the spec: the email member of the Validation Predicate Set
(spec §4.1) — the browser-side check the script consumes via
`validity.valid`; reason "required" if empty, else "invalid format". -/
def validateEmail (s : String) : ValidationResult :=
  if s = "" then ⟨false, some "required"⟩
  else if validEmailShape s then ⟨true, none⟩
  else ⟨false, some "invalid format"⟩

/-! ## Login form (`setupLoginForm`, main.js lines 33–85)

The submit handler trims both fields, runs the HTML5 constraint check
(`loginForm.checkValidity()`), and either reports validation errors or
compares the trimmed pair against the hardcoded demo credentials.  The
handler is always invoked on submit — nothing disables the button — so it is
a total function from the two raw field values to the displayed outcome. -/

/-- Demo credential: the valid email (main.js line 42). -/
def VALID_EMAIL : String := "tester@example.com"

/-- Demo credential: the valid password (main.js line 43). -/
def VALID_PASSWORD : String := "password123"

/-- Everything the login submit handler writes: the `login-message` text and
colour, the two `setCustomValidity` messages (empty string when cleared), and
whether the credential comparison was reached. -/
structure LoginOutcome where
  messageText : String
  messageGreen : Bool
  emailCustomError : String
  passwordCustomError : String
  credentialsChecked : Bool
deriving DecidableEq, Repr

/-- Modelled from the spec: `loginForm.checkValidity()` — the HTML5
constraint validation of the login page, whose HTML is not under `src/`.
Per spec §4.1 the email field is valid iff non-empty and email-shaped (the
browser sanitizes surrounding whitespace away from a `type=email` value),
and the login password is valid iff its length is at least the configured
minimum of 6. -/
def loginCheckValidity (emailRaw passwordRaw : String) : Bool :=
  validEmailShape (jsTrim emailRaw) && decide (6 ≤ passwordRaw.length)

/-- The login submit handler (main.js lines 45–84) as a function from the two
raw input values to the displayed outcome. -/
def loginSubmit (emailRaw passwordRaw : String) : LoginOutcome :=
  let email := jsTrim emailRaw
  let password := jsTrim passwordRaw
  if !(loginCheckValidity emailRaw passwordRaw) then
    { messageText := "Please fix the highlighted errors."
      messageGreen := false
      emailCustomError :=
        if email = "" then "Email is required."
        else if !(validEmailShape email) then "Please enter a valid email address."
        else ""
      passwordCustomError :=
        if password = "" then "Password is required."
        else if password.length < 6 then "Password must be at least 6 characters."
        else ""
      credentialsChecked := false }
  else if email = VALID_EMAIL && password = VALID_PASSWORD then
    { messageText := "Login successful."
      messageGreen := true
      emailCustomError := ""
      passwordCustomError := ""
      credentialsChecked := true }
  else
    { messageText := "Invalid credentials."
      messageGreen := false
      emailCustomError := ""
      passwordCustomError := ""
      credentialsChecked := true }

/-! ## Quiz form (`setupQuizForm`, main.js lines 142–205)

DOM reads become arguments: the raw `q1` text, the list of checked `q2`
values (in document order), and the value of the checked `q3` radio if any.
The displayed `quiz-result` is either one of the three required-answer
messages or the score line. -/

/-- The text the quiz handler leaves in `quiz-result`: a required-answer
message (scoring skipped) or a computed score. -/
inductive QuizResult where
  | unanswered (msg : String)
  | scored (score : Nat)
deriving DecidableEq, Repr

/-- The quiz submit handler (main.js lines 148–204). -/
def quizSubmit (q1Raw : String) (q2Checked : List String)
    (q3Checked : Option String) : QuizResult :=
  let q1 := jsToLower (jsTrim q1Raw)
  if q1 = "" then .unanswered "Please answer question 1."
  else if q2Checked.length = 0 then
    .unanswered "Please select at least one option for question 2."
  else
    match q3Checked with
    | none => .unanswered "Please select an option for question 3."
    | some q3Value =>
      let score : Nat := 0
      let score := if q1 = "quality assurance" then score + 1 else score
      let score :=
        if q2Checked.contains "unit" && q2Checked.contains "manual" &&
            !(q2Checked.contains "coffee") then score + 1 else score
      let score := if q3Value = "early" then score + 1 else score
      .scored score

/-! ## Form-state scenario (`setupFormStateScenario`, main.js lines 265–315)

The scenario's state is the three field values (plus the browser's constraint
verdict on the email input) and the submit button's `disabled` flag.  Every
`input` event on email or password and every `change` event on the checkbox
re-runs `checkFormValidity`, which recomputes the flag. -/

/-- The form-state page's mutable state: field values, the browser's
`validity.valid` verdict for the email input, the checkbox, and the submit
button's `disabled` flag. -/
structure FormState where
  emailValue : String
  emailValid : Bool
  passwordValue : String
  agreeChecked : Bool
  submitDisabled : Bool
deriving DecidableEq, Repr

/-- The events `checkFormValidity` is wired to: `input` on the email field
(delivering the new value and the browser's validity verdict for it),
`input` on the password field, and `change` on the terms checkbox. -/
inductive FormEvent where
  | emailInput (value : String) (valid : Bool)
  | passwordInput (value : String)
  | agreeChange (checked : Bool)
deriving DecidableEq, Repr

/-- `checkFormValidity` (main.js lines 278–283): recompute the submit
button's `disabled` flag from the current field state. -/
def checkFormValidity (s : FormState) : FormState :=
  let emailOk := s.emailValid && decide (0 < s.emailValue.length)
  let passwordOk := decide (8 ≤ s.passwordValue.length)
  { s with submitDisabled := !(emailOk && passwordOk && s.agreeChecked) }

/-- One `input`/`change` event on the form-state page: the field updates and
the registered listener re-runs `checkFormValidity` (main.js lines
286–308). -/
def formStep (s : FormState) : FormEvent → FormState
  | .emailInput v valid =>
      checkFormValidity { s with emailValue := v, emailValid := valid }
  | .passwordInput v => checkFormValidity { s with passwordValue := v }
  | .agreeChange b => checkFormValidity { s with agreeChecked := b }

/-! ## Sortable table (`setupSortableTableScenario`, main.js lines 439–494)

Rows are modelled as lists of cell texts; the header list carries each
sortable header's `data-sort` value in column order.  `Array.prototype.sort`
is stable (ECMAScript 2019), modelled by a stable insertion sort. -/

/-- Sort direction, the `"asc"` / `"desc"` strings of the source. -/
inductive SortDir where
  | asc
  | desc
deriving DecidableEq, Repr

/-- `direction === "asc" ? "desc" : "asc"` (main.js line 453). -/
def SortDir.flip : SortDir → SortDir
  | .asc => .desc
  | .desc => .asc

/-- A parsed decimal number, kept exactly as `mantissa · 10 ^ exp10` (this
avoids floating point; the table's decimal literals are all exactly
representable, so comparisons agree with JavaScript's). -/
structure JsNumber where
  mantissa : Int
  exp10 : Int
deriving DecidableEq, Repr

/-- Model of the JavaScript `parseFloat` builtin on the already-trimmed cell
texts the comparator feeds it: parse the longest prefix that is a decimal
literal `[+-] digits [. digits] [e [+-] digits]` and return its value, or
`none` (JavaScript `NaN`) when no such prefix exists.  (`Infinity` literals
do not occur in the table data and are outside the model.) -/
def jsParseFloat (s : String) : Option JsNumber :=
  let (sign, cs) : Int × List Char :=
    match s.toList with
    | '-' :: rest => (-1, rest)
    | '+' :: rest => (1, rest)
    | cs => (1, cs)
  let intDigits := cs.takeWhile Char.isDigit
  let cs1 := cs.dropWhile Char.isDigit
  let (fracDigits, cs2) : List Char × List Char :=
    match cs1 with
    | '.' :: rest => (rest.takeWhile Char.isDigit, rest.dropWhile Char.isDigit)
    | _ => ([], cs1)
  if intDigits.isEmpty && fracDigits.isEmpty then none
  else
    let expVal : Int :=
      match cs2 with
      | 'e' :: rest => readExponent rest
      | 'E' :: rest => readExponent rest
      | _ => 0
    let mantissa : Int :=
      sign * ((intDigits ++ fracDigits).foldl (fun a c => a * 10 + (c.toNat - 48)) 0 : Nat)
    some ⟨mantissa, expVal - fracDigits.length⟩
where
  /-- The optional exponent part after `e`/`E`; an exponent with no digits is
  not part of the parsed prefix and contributes 0. -/
  readExponent (cs : List Char) : Int :=
    let (esign, cs') : Int × List Char :=
      match cs with
      | '-' :: rest => (-1, rest)
      | '+' :: rest => (1, rest)
      | cs => (1, cs)
    esign * ((cs'.takeWhile Char.isDigit).foldl (fun a c => a * 10 + (c.toNat - 48)) 0 : Nat)

/-- Sign of the comparator value `numA - numB` (main.js line 483): JavaScript
`sort` only consumes the sign of the comparator result.  The two exact
values are compared after rescaling to the smaller power of ten. -/
def numCmp (x y : JsNumber) : Int :=
  let e := min x.exp10 y.exp10
  let a := x.mantissa * 10 ^ (x.exp10 - e).toNat
  let b := y.mantissa * 10 ^ (y.exp10 - e).toNat
  if a < b then -1 else if b < a then 1 else 0

/-- Code-unit comparison of two character lists. -/
def charListCmp : List Char → List Char → Int
  | [], [] => 0
  | [], _ :: _ => -1
  | _ :: _, [] => 1
  | a :: as, b :: bs =>
      if a < b then -1 else if b < a then 1 else charListCmp as bs

/-- Model of the JavaScript `String.prototype.localeCompare` builtin on the
table's ASCII cell texts: code-unit lexicographic comparison (the default
locale agrees with code-unit order on this data). -/
def localeCompare (a b : String) : Int :=
  charListCmp a.toList b.toList

/-- The comparator body (main.js lines 477–486): numeric when both cell
texts parse as numbers, otherwise locale string comparison. -/
def compareCells (a b : String) : Int :=
  match jsParseFloat a, jsParseFloat b with
  | some x, some y => numCmp x y
  | some _, none => localeCompare a b
  | none, some _ => localeCompare a b
  | none, none => localeCompare a b

/-- The full comparator (main.js lines 473–488): cell texts are trimmed, and
descending direction negates the comparison. -/
def cellComparison (dir : SortDir) (a b : String) : Int :=
  let c := compareCells (jsTrim a) (jsTrim b)
  match dir with
  | .asc => c
  | .desc => -c

/-- Stable insertion of `x` into `l`: `x` goes before the first element it
does not compare strictly after, so equal elements keep their original
relative order. -/
def stableInsert (le : α → α → Bool) (x : α) : List α → List α
  | [] => [x]
  | y :: ys => if le x y then x :: y :: ys else y :: stableInsert le x ys

/-- Stable sort by the boolean `le`, modelling the stability guarantee of
`Array.prototype.sort`. -/
def stableSort (le : α → α → Bool) : List α → List α
  | [] => []
  | x :: xs => stableInsert le x (stableSort le xs)

/-- A table row: its cell texts in column order. -/
abbrev TableRow := List String

/-- `sortTable` (main.js lines 468–493): locate the clicked header's column
index, stably sort the rows by the comparator on that column's cells, and
re-append them in the new order. -/
def sortTable (headers : List String) (rows : List TableRow) (field : String)
    (dir : SortDir) : List TableRow :=
  let headerIndex := headers.indexOf field
  stableSort
    (fun rowA rowB =>
      decide (cellComparison dir (rowA.getD headerIndex "") (rowB.getD headerIndex "") ≤ 0))
    rows

/-- The `currentSort` record (main.js line 444). -/
structure SortState where
  field : Option String
  direction : SortDir
deriving DecidableEq, Repr

/-- The click handler's update of `currentSort` (main.js lines 451–457):
clicking the current column toggles the direction, clicking a different
column selects it and resets to ascending. -/
def headerClick (st : SortState) (sortField : String) : SortState :=
  if st.field = some sortField then
    { st with direction := st.direction.flip }
  else
    { field := some sortField, direction := .asc }

/-- The whole sortable-table page state: `currentSort` plus the current
`tbody` row order. -/
structure TableState where
  sortState : SortState
  rows : List TableRow
deriving DecidableEq, Repr

/-- One header click (main.js lines 448–465): update `currentSort`, then
sort the current rows by the new direction. -/
def tableClick (headers : List String) (ts : TableState) (sortField : String) :
    TableState :=
  let st := headerClick ts.sortState sortField
  { sortState := st, rows := sortTable headers ts.rows sortField st.direction }

/-! ## Pagination (`setupPaginationScenario`, main.js lines 501–583) -/

/-- One record of the pagination sample data. -/
structure Person where
  id : Nat
  name : String
  email : String
  role : String
deriving DecidableEq, Repr

/-- `itemsPerPage` (main.js line 502). -/
def itemsPerPage : Nat := 5

/-- The fixed `allData` array (main.js lines 506–522). -/
def allData : List Person :=
  [ ⟨1, "Alice Johnson", "alice@example.com", "QA Engineer"⟩,
    ⟨2, "Bob Smith", "bob@example.com", "Developer"⟩,
    ⟨3, "Carol White", "carol@example.com", "Product Manager"⟩,
    ⟨4, "David Lee", "david@example.com", "QA Engineer"⟩,
    ⟨5, "Eve Davis", "eve@example.com", "DevOps"⟩,
    ⟨6, "Frank Brown", "frank@example.com", "Developer"⟩,
    ⟨7, "Grace Chen", "grace@example.com", "QA Engineer"⟩,
    ⟨8, "Henry Wilson", "henry@example.com", "Architect"⟩,
    ⟨9, "Iris Taylor", "iris@example.com", "QA Engineer"⟩,
    ⟨10, "Jack Martin", "jack@example.com", "Developer"⟩,
    ⟨11, "Kate Anderson", "kate@example.com", "Manager"⟩,
    ⟨12, "Liam Garcia", "liam@example.com", "QA Engineer"⟩,
    ⟨13, "Maria Rodriguez", "maria@example.com", "Developer"⟩,
    ⟨14, "Nathan Moore", "nathan@example.com", "QA Engineer"⟩,
    ⟨15, "Olivia Jackson", "olivia@example.com", "Product Manager"⟩ ]

/-- `Math.ceil(allData.length / itemsPerPage)` (main.js lines 545, 573),
as ceiling division on naturals. -/
def totalPages : Nat := (allData.length + itemsPerPage - 1) / itemsPerPage

/-- The slice rendered for page `p` (main.js lines 529–531):
`allData.slice((p-1)*itemsPerPage, (p-1)*itemsPerPage + itemsPerPage)`. -/
def pageData (p : Nat) : List Person :=
  (allData.drop ((p - 1) * itemsPerPage)).take itemsPerPage

/-- `prevBtn.disabled = currentPage === 1` (main.js line 554). -/
def prevDisabled (p : Nat) : Bool := p == 1

/-- `nextBtn.disabled = currentPage === totalPages` (main.js line 555). -/
def nextDisabled (p : Nat) : Bool := p == totalPages

/-- A click on one of the two pagination controls. -/
inductive PageClick where
  | prev
  | next
deriving DecidableEq, Repr

/-- The two click handlers (main.js lines 562–579): decrement above page 1,
increment below the last page, otherwise leave `currentPage` unchanged. -/
def pageStep (p : Nat) : PageClick → Nat
  | .prev => if 1 < p then p - 1 else p
  | .next => if p < totalPages then p + 1 else p

/-- Run a sequence of pagination clicks from page `p`. -/
def pageRun (clicks : List PageClick) (p : Nat) : Nat :=
  clicks.foldl pageStep p

/-! ## Student filter setup guards

`main.js` contains two variants of `setupStudentFilter`.  The revised one
(lines 95–125) guards both element lookups; the earlier one (lines
1072–1100, after the variant separator) guards only the search input and
dereferences the table unconditionally.  A page is abstracted to which of
the two elements it contains; the outcome records whether the setup attached
its listener, declined, or raised. -/

/-- What a `setupStudentFilter` call does on a given page. -/
inductive SetupOutcome where
  | skipped
  | attached
  | typeError
deriving DecidableEq, Repr

/-- The revised `setupStudentFilter` (main.js lines 95–125): return early
when `search-input` is absent, and again when `students-table` is absent. -/
def setupStudentFilterGuarded (searchPresent tablePresent : Bool) : SetupOutcome :=
  if !searchPresent then .skipped
  else if !tablePresent then .skipped
  else .attached

/-- The earlier `setupStudentFilter` variant (main.js lines 1072–1100):
return early when `search-input` is absent, but then call
`table.querySelectorAll` without checking `students-table` — on a page
without the table, `getElementById` yields `null` and the call raises a
`TypeError`. -/
def setupStudentFilterUnguarded (searchPresent tablePresent : Bool) : SetupOutcome :=
  if !searchPresent then .skipped
  else if !tablePresent then .typeError
  else .attached

/-! ## Helper lemmas -/

theorem dropWhile_length_le (p : α → Bool) (l : List α) :
    (l.dropWhile p).length ≤ l.length := by
  induction l with
  | nil => simp [List.dropWhile]
  | cons a as ih =>
    simp only [List.dropWhile]
    split
    · exact Nat.le_succ_of_le ih
    · simp

theorem jsTrim_length_le (s : String) : (jsTrim s).length ≤ s.length := by
  show (String.mk (((s.toList.dropWhile isJsWhitespace).reverse.dropWhile
    isJsWhitespace).reverse)).length ≤ s.length
  have h1 : (String.mk (((s.toList.dropWhile isJsWhitespace).reverse.dropWhile
      isJsWhitespace).reverse)).length =
      (((s.toList.dropWhile isJsWhitespace).reverse.dropWhile
        isJsWhitespace).reverse).length := rfl
  have h2 : s.length = s.toList.length := rfl
  rw [h1, h2, List.length_reverse]
  calc ((s.toList.dropWhile isJsWhitespace).reverse.dropWhile isJsWhitespace).length
      ≤ (s.toList.dropWhile isJsWhitespace).reverse.length :=
        dropWhile_length_le _ _
    _ = (s.toList.dropWhile isJsWhitespace).length := List.length_reverse _
    _ ≤ s.toList.length := dropWhile_length_le _ _

theorem string_length_pos_iff (s : String) : 0 < s.length ↔ s ≠ "" := by
  cases s with
  | mk data =>
    show 0 < data.length ↔ String.mk data ≠ ""
    rw [List.length_pos]
    constructor
    · intro h he
      exact h (by simpa using congrArg String.data he)
    · intro h hd
      apply h
      rw [hd]

theorem stableInsert_perm (le : α → α → Bool) (x : α) (l : List α) :
    (stableInsert le x l).Perm (x :: l) := by
  induction l with
  | nil => exact List.Perm.refl _
  | cons y ys ih =>
    simp only [stableInsert]
    split
    · exact List.Perm.refl _
    · exact (List.Perm.cons y ih).trans (List.Perm.swap x y ys)

theorem stableSort_perm (le : α → α → Bool) (l : List α) :
    (stableSort le l).Perm l := by
  induction l with
  | nil => exact List.Perm.refl _
  | cons x xs ih =>
    exact (stableInsert_perm le x (stableSort le xs)).trans (List.Perm.cons x ih)

theorem sortTable_perm (headers : List String) (rows : List TableRow)
    (field : String) (dir : SortDir) :
    (sortTable headers rows field dir).Perm rows :=
  stableSort_perm _ rows

theorem takeWhile_append_eq (p : α → Bool) (x : α) (l r : List α)
    (hl : ∀ c ∈ l, p c = true) (hx : p x = false) :
    ((l ++ x :: r).takeWhile p) = l := by
  induction l with
  | nil => simp [List.takeWhile_cons, hx]
  | cons a as ih =>
    rw [List.cons_append, List.takeWhile_cons, hl a (List.mem_cons_self a as)]
    simp only [if_true]
    rw [ih (fun c hc => hl c (List.mem_cons_of_mem _ hc))]

theorem dropWhile_append_eq (p : α → Bool) (x : α) (l r : List α)
    (hl : ∀ c ∈ l, p c = true) (hx : p x = false) :
    ((l ++ x :: r).dropWhile p) = x :: r := by
  induction l with
  | nil => simp [List.dropWhile_cons, hx]
  | cons a as ih =>
    rw [List.cons_append, List.dropWhile_cons, hl a (List.mem_cons_self a as)]
    simp only [if_true]
    rw [ih (fun c hc => hl c (List.mem_cons_of_mem _ hc))]

/-! ## Claim theorems -/

/-- C1: for every quiz submission that passes the required-answer
preconditions, the computed score is the sum of three independent 0/1
contributions — 1 if the trimmed, lowercased q1 text equals
"quality assurance", 1 if the checked q2 values contain both "unit" and
"manual" and not "coffee" (extras are not penalized), 1 if the selected q3
value equals "early" — and the two end-to-end examples score 3 and 2. -/
theorem quiz_score_is_sum_of_indicators :
    (∀ (q1 : String) (q2 : List String) (q3 : String),
      jsToLower (jsTrim q1) ≠ "" → q2 ≠ [] →
      quizSubmit q1 q2 (some q3) =
        .scored ((if jsToLower (jsTrim q1) = "quality assurance" then 1 else 0) +
          (if "unit" ∈ q2 ∧ "manual" ∈ q2 ∧ "coffee" ∉ q2 then 1 else 0) +
          (if q3 = "early" then 1 else 0))) ∧
    quizSubmit "Quality Assurance" ["unit", "manual"] (some "early") = .scored 3 ∧
    quizSubmit "Quality Assurance" ["unit", "manual", "coffee"] (some "early") =
      .scored 2 := by
  refine ⟨?_, by decide, by decide⟩
  intro q1 q2 q3 h1 h2
  have h2' : ¬(q2.length = 0) := by
    simpa [List.length_eq_zero] using h2
  unfold quizSubmit
  rw [if_neg h1, if_neg h2']
  by_cases hq1 : jsToLower (jsTrim q1) = "quality assurance" <;>
    by_cases hu : "unit" ∈ q2 <;> by_cases hm : "manual" ∈ q2 <;>
      by_cases hc : "coffee" ∈ q2 <;> by_cases hq3 : q3 = "early" <;>
        simp [hq1, hu, hm, hc, hq3, List.contains, List.elem_iff]

/-- Witness for C1: a concrete submission passing the preconditions, scored
through the theorem. -/
theorem quiz_score_is_sum_of_indicators_witness :
    quizSubmit "QA " ["manual", "unit", "extra"] (some "late") = .scored 1 := by
  rw [quiz_score_is_sum_of_indicators.1 "QA " ["manual", "unit", "extra"] "late"
    (by decide) (by decide)]
  decide

/-- C2: the quiz submit handler checks its preconditions in priority order —
q1 non-empty after trim, then at least one q2 checked, then a q3 selection —
and on the first failure it stops with only that precondition's message;
scoring happens only when all three pass. -/
theorem quiz_precondition_priority :
    ∀ (q1 : String) (q2 : List String) (q3 : Option String),
      (jsToLower (jsTrim q1) = "" →
        quizSubmit q1 q2 q3 = .unanswered "Please answer question 1.") ∧
      (jsToLower (jsTrim q1) ≠ "" → q2 = [] →
        quizSubmit q1 q2 q3 =
          .unanswered "Please select at least one option for question 2.") ∧
      (jsToLower (jsTrim q1) ≠ "" → q2 ≠ [] → q3 = none →
        quizSubmit q1 q2 q3 =
          .unanswered "Please select an option for question 3.") ∧
      (∀ v, jsToLower (jsTrim q1) ≠ "" → q2 ≠ [] → q3 = some v →
        ∃ n, quizSubmit q1 q2 q3 = .scored n) := by
  intro q1 q2 q3
  refine ⟨fun h1 => ?_, fun h1 h2 => ?_, fun h1 h2 h3 => ?_, fun v h1 h2 h3 => ?_⟩
  · unfold quizSubmit
    rw [if_pos h1]
  · unfold quizSubmit
    rw [if_neg h1, if_pos (by simp [h2])]
  · have h2' : ¬(q2.length = 0) := by simpa [List.length_eq_zero] using h2
    unfold quizSubmit
    rw [if_neg h1, if_neg h2', h3]
  · have h2' : ¬(q2.length = 0) := by simpa [List.length_eq_zero] using h2
    unfold quizSubmit
    rw [if_neg h1, if_neg h2', h3]
    exact ⟨_, rfl⟩

/-- Witness for C2: each precondition failure hit at a concrete input through
the theorem. -/
theorem quiz_precondition_priority_witness :
    quizSubmit "  " ["unit"] (some "early") =
      .unanswered "Please answer question 1." ∧
    quizSubmit "x" [] (some "early") =
      .unanswered "Please select at least one option for question 2." ∧
    quizSubmit "x" ["unit"] none =
      .unanswered "Please select an option for question 3." :=
  ⟨(quiz_precondition_priority "  " ["unit"] (some "early")).1 (by decide),
   (quiz_precondition_priority "x" [] (some "early")).2.1 (by decide) rfl,
   (quiz_precondition_priority "x" ["unit"] none).2.2.1 (by decide) (by decide) rfl⟩

/-- C3: after every input or change event on the form-state page, the submit
control is enabled (not disabled) iff the email is valid and non-empty, the
password has length at least 8, and the terms checkbox is checked; a
password of exactly 8 characters (the boundary) passes. -/
theorem form_gate_enabled_iff :
    (∀ (s : FormState) (e : FormEvent),
      (formStep s e).submitDisabled = false ↔
        ((formStep s e).emailValid = true ∧ (formStep s e).emailValue ≠ "" ∧
          8 ≤ (formStep s e).passwordValue.length ∧
          (formStep s e).agreeChecked = true)) ∧
    (formStep ⟨"a@b.com", true, "", true, true⟩
      (.passwordInput "12345678")).submitDisabled = false := by
  refine ⟨?_, by decide⟩
  intro s e
  have key : ∀ t : FormState, (checkFormValidity t).submitDisabled = false ↔
      (t.emailValid = true ∧ t.emailValue ≠ "" ∧
        8 ≤ t.passwordValue.length ∧ t.agreeChecked = true) := by
    intro t
    simp only [checkFormValidity, Bool.not_eq_false', Bool.and_eq_true,
      decide_eq_true_eq, ← string_length_pos_iff]
    constructor
    · rintro ⟨⟨⟨h1, h2⟩, h3⟩, h4⟩
      exact ⟨h1, h2, h3, h4⟩
    · rintro ⟨h1, h2, h3, h4⟩
      exact ⟨⟨⟨h1, h2⟩, h3⟩, h4⟩
  cases e with
  | emailInput v valid => exact key _
  | passwordInput v => exact key _
  | agreeChange b => exact key _

/-- C4: the hardcoded credential pair logs in successfully; any other pair
that passes field validation shows "Invalid credentials."; an empty password
fails field validation with the required-password message and no credential
comparison; the handler always runs and always leaves a message (validation
decides only what is displayed, it never blocks the click). -/
theorem login_submit_outcomes :
    (loginSubmit "tester@example.com" "password123").messageText =
      "Login successful." ∧
    (loginSubmit "tester@example.com" "password123").messageGreen = true ∧
    (∀ e p, loginCheckValidity e p = true →
      ¬(jsTrim e = VALID_EMAIL ∧ jsTrim p = VALID_PASSWORD) →
      (loginSubmit e p).messageText = "Invalid credentials.") ∧
    (∀ e, (loginSubmit e "").passwordCustomError = "Password is required." ∧
      (loginSubmit e "").credentialsChecked = false ∧
      (loginSubmit e "").messageText = "Please fix the highlighted errors.") ∧
    (∀ e p, (loginSubmit e p).messageText ≠ "") := by
  refine ⟨by decide, by decide, ?_, ?_, ?_⟩
  · intro e p h hne
    by_cases h1 : jsTrim e = VALID_EMAIL <;> by_cases h2 : jsTrim p = VALID_PASSWORD
    · exact absurd ⟨h1, h2⟩ hne
    · simp [loginSubmit, h, h1, h2]
    · simp [loginSubmit, h, h1, h2]
    · simp [loginSubmit, h, h1, h2]
  · intro e
    have hval : loginCheckValidity e "" = false := by
      simp [loginCheckValidity]
    have htrim : jsTrim "" = "" := rfl
    refine ⟨?_, ?_, ?_⟩ <;> simp [loginSubmit, hval, htrim]
  · intro e p
    simp only [loginSubmit]
    split
    · show ("Please fix the highlighted errors." : String) ≠ ""
      decide
    · split
      · show ("Login successful." : String) ≠ ""
        decide
      · show ("Invalid credentials." : String) ≠ ""
        decide

/-- Witness for C4: a well-formed but wrong credential pair shows the
invalid-credentials message, via the theorem. -/
theorem login_submit_outcomes_witness :
    (loginSubmit "invalid@email.com" "wrongpass").messageText =
      "Invalid credentials." :=
  login_submit_outcomes.2.2.1 "invalid@email.com" "wrongpass" (by decide)
    (by decide)

/-- C5: email validation accepts exactly the non-empty values of shape
local@domain with a dot in the domain; every value missing an "@", and every
value whose domain part has no dot, is rejected — with reason "required"
when empty and "invalid format" otherwise. -/
theorem email_shape_required :
    (∀ s, (validateEmail s).valid = true ↔ (s ≠ "" ∧ validEmailShape s = true)) ∧
    (∀ s, s.toList.contains '@' = false →
      (validateEmail s).valid = false ∧
        (validateEmail s).reason =
          some (if s = "" then "required" else "invalid format")) ∧
    (∀ (locPart domPart : List Char), '@' ∉ locPart → '@' ∉ domPart →
      '.' ∉ domPart →
      (validateEmail (String.mk (locPart ++ '@' :: domPart))).valid = false ∧
        (validateEmail (String.mk (locPart ++ '@' :: domPart))).reason =
          some "invalid format") := by
  refine ⟨?_, ?_, ?_⟩
  · intro s
    by_cases hs : s = ""
    · simp [validateEmail, hs]
    · by_cases hshape : validEmailShape s = true <;> simp [validateEmail, hs, hshape]
  · intro s h
    have hmem : '@' ∉ s.toList := by
      simpa [List.contains, List.elem_iff] using h
    have hcount : s.toList.count '@' = 0 := List.count_eq_zero.2 hmem
    have hshape : validEmailShape s = false := by
      have hc : (s.toList.count '@' == 1) = false := by rw [hcount]; rfl
      simp only [validEmailShape, hc, Bool.false_and]
    by_cases hs : s = "" <;> simp [validateEmail, hs, hshape]
  · intro locPart domPart hloc hdom hdot
    have hl : ∀ c ∈ locPart, (fun c => decide (c ≠ '@')) c = true := by
      intro c hc
      simp only [decide_eq_true_eq]
      exact fun e => hloc (e ▸ hc)
    have hx : (fun c => decide (c ≠ '@')) '@' = false := by simp
    have hshape : validEmailShape (String.mk (locPart ++ '@' :: domPart)) = false := by
      have htoList : (String.mk (locPart ++ '@' :: domPart)).toList =
        locPart ++ '@' :: domPart := rfl
      have hdom' : domPart.contains '.' = false := by
        simpa [List.contains, List.elem_iff] using hdot
      simp only [validEmailShape, htoList,
        takeWhile_append_eq _ _ _ _ hl hx, dropWhile_append_eq _ _ _ _ hl hx,
        List.tail_cons, hdom', Bool.and_false]
    have hne : String.mk (locPart ++ '@' :: domPart) ≠ "" := by
      intro he
      have := congrArg String.data he
      simp at this
    simp [validateEmail, hne, hshape]

/-- Witness for C5: a value without "@" and a value with a dotless domain,
both rejected through the theorem. -/
theorem email_shape_required_witness :
    (validateEmail "no-at-sign").valid = false ∧
    (validateEmail (String.mk (['a'] ++ '@' :: ['b']))).reason =
      some "invalid format" :=
  ⟨(email_shape_required.2.1 "no-at-sign" (by decide)).1,
   (email_shape_required.2.2 ['a'] ['b'] (by decide) (by decide) (by decide)).2⟩

/-- C10: the login handler trims both fields before the credential
comparison, so every raw pair whose trimmed values equal the demo
credentials (for example a password with trailing spaces) logs in
successfully. -/
theorem login_trims_before_compare :
    ∀ e p : String, jsTrim e = VALID_EMAIL → jsTrim p = VALID_PASSWORD →
      (loginSubmit e p).messageText = "Login successful." ∧
      (loginSubmit e p).messageGreen = true := by
  intro e p he hp
  have hlen : 6 ≤ p.length := by
    have h1 : (jsTrim p).length ≤ p.length := jsTrim_length_le p
    rw [hp] at h1
    have h2 : VALID_PASSWORD.length = 11 := rfl
    omega
  have hv : loginCheckValidity e p = true := by
    simp [loginCheckValidity, he, hlen]
    decide
  constructor <;> simp [loginSubmit, hv, he, hp]

/-- Witness for C10: whitespace-padded credentials still log in, via the
theorem. -/
theorem login_trims_before_compare_witness :
    (loginSubmit " tester@example.com " "password123  ").messageText =
      "Login successful." :=
  (login_trims_before_compare " tester@example.com " "password123  "
    (by decide) (by decide)).1

/-- C6 counterexample: on a two-row table sorted by its only column,
clicking the header twice leaves the rows in descending order, not in the
original pre-sort order. -/
theorem sort_double_click_counterexample :
    ¬((tableClick ["score"]
        (tableClick ["score"] ⟨⟨none, .asc⟩, [["a"], ["b"]]⟩ "score")
        "score").rows = [["a"], ["b"]]) := by
  decide

/-- C6 (amended): clicking sort twice on the same column header, starting
with that column not being the current sort column, toggles the direction
from ascending to descending, and the table's row order after the two
clicks is a reordering (a permutation) of the original pre-sort rows — in
general the descending order, not the original order. -/
theorem sort_double_click_toggles :
    ∀ (headers : List String) (ts : TableState) (f : String),
      ts.sortState.field ≠ some f →
      (tableClick headers (tableClick headers ts f) f).sortState =
        ⟨some f, .desc⟩ ∧
      ((tableClick headers (tableClick headers ts f) f).rows).Perm ts.rows := by
  intro headers ts f hne
  have h1 : headerClick ts.sortState f = ⟨some f, .asc⟩ := by
    simp [headerClick, hne]
  have h2 : headerClick (headerClick ts.sortState f) f = ⟨some f, .desc⟩ := by
    rw [h1]
    simp [headerClick, SortDir.flip]
  constructor
  · simp [tableClick, h2]
  · refine (sortTable_perm _ _ _ _).trans ?_
    exact sortTable_perm _ _ _ _

/-- Witness for the amended C6: the counterexample table, run through the
theorem. -/
theorem sort_double_click_toggles_witness :
    (tableClick ["score"]
        (tableClick ["score"] ⟨⟨none, .asc⟩, [["a"], ["b"]]⟩ "score")
        "score").sortState = ⟨some "score", .desc⟩ ∧
    ((tableClick ["score"]
        (tableClick ["score"] ⟨⟨none, .asc⟩, [["a"], ["b"]]⟩ "score")
        "score").rows).Perm [["a"], ["b"]] :=
  sort_double_click_toggles ["score"] ⟨⟨none, .asc⟩, [["a"], ["b"]]⟩ "score"
    (by decide)

/-- C7: the comparator compares two cells numerically exactly when both
trimmed cell texts parse as numbers and by locale string comparison
otherwise; descending direction negates the comparison; clicking the
currently sorted column flips the direction while clicking a different
column resets it to ascending. -/
theorem sort_comparator_policy :
    (∀ (a b : String) (x y : JsNumber),
      jsParseFloat (jsTrim a) = some x → jsParseFloat (jsTrim b) = some y →
      cellComparison .asc a b = numCmp x y) ∧
    (∀ a b : String,
      jsParseFloat (jsTrim a) = none ∨ jsParseFloat (jsTrim b) = none →
      cellComparison .asc a b = localeCompare (jsTrim a) (jsTrim b)) ∧
    (∀ a b : String, cellComparison .desc a b = -cellComparison .asc a b) ∧
    (∀ (st : SortState) (f : String), st.field = some f →
      headerClick st f = ⟨some f, st.direction.flip⟩) ∧
    (∀ (st : SortState) (f : String), st.field ≠ some f →
      headerClick st f = ⟨some f, .asc⟩) := by
  refine ⟨?_, ?_, ?_, ?_, ?_⟩
  · intro a b x y hx hy
    simp [cellComparison, compareCells, hx, hy]
  · intro a b h
    rcases h with h | h <;>
      cases hA : jsParseFloat (jsTrim a) <;> cases hB : jsParseFloat (jsTrim b) <;>
        simp_all [cellComparison, compareCells]
  · intro a b
    rfl
  · intro st f h
    cases st with
    | mk field direction =>
      simp_all [headerClick]
  · intro st f h
    simp [headerClick, h]

/-- Witness for C7: two numeric cells compared through the theorem, with the
numeric verdict evaluated. -/
theorem sort_comparator_policy_witness :
    cellComparison .asc "10" "2" = numCmp ⟨10, 0⟩ ⟨2, 0⟩ ∧
    numCmp ⟨10, 0⟩ ⟨2, 0⟩ = 1 :=
  ⟨sort_comparator_policy.1 "10" "2" ⟨10, 0⟩ ⟨2, 0⟩ (by decide) (by decide),
   by decide⟩

/-- C8: the 15-row data set at page size 5 yields exactly 3 pages; page 1
shows rows 1–5; "previous" is disabled exactly on page 1 and "next" exactly
on page 3; and from the initial page 1, any sequence of prev/next clicks
keeps the current page within 1..3. -/
theorem pagination_bounds :
    totalPages = 3 ∧
    pageData 1 = allData.take 5 ∧
    (pageData 1).map Person.id = [1, 2, 3, 4, 5] ∧
    (∀ p : Nat, prevDisabled p = true ↔ p = 1) ∧
    (∀ p : Nat, nextDisabled p = true ↔ p = 3) ∧
    (∀ clicks : List PageClick,
      1 ≤ pageRun clicks 1 ∧ pageRun clicks 1 ≤ 3) := by
  have htotal : totalPages = 3 := by decide
  refine ⟨htotal, by decide, by decide, ?_, ?_, ?_⟩
  · intro p
    simp [prevDisabled]
  · intro p
    simp [nextDisabled, htotal]
  · have key : ∀ (clicks : List PageClick) (p : Nat), 1 ≤ p → p ≤ 3 →
        1 ≤ pageRun clicks p ∧ pageRun clicks p ≤ 3 := by
      intro clicks
      induction clicks with
      | nil =>
        intro p h1 h2
        exact ⟨h1, h2⟩
      | cons c cs ih =>
        intro p h1 h2
        have hstep : 1 ≤ pageStep p c ∧ pageStep p c ≤ 3 := by
          cases c <;> simp only [pageStep, htotal] <;> split <;> omega
        exact ih (pageStep p c) hstep.1 hstep.2
    intro clicks
    exact key clicks 1 (by omega) (by omega)

/-- C9: the revised student-filter setup declines to attach (without raising)
whenever a required element is missing, but the earlier variant, on a page
with the search input present and the students table absent, dereferences
the null table and raises a TypeError instead of returning quietly. -/
theorem student_filter_guard_behaviour :
    (∀ searchPresent tablePresent : Bool,
      setupStudentFilterGuarded searchPresent tablePresent ≠ .typeError) ∧
    setupStudentFilterGuarded true false = .skipped ∧
    setupStudentFilterUnguarded true false = .typeError := by
  exact ⟨by decide, by decide, by decide⟩

end StudyHub
